import Mathlib

/-!
Verification development for the recon-india publishing engine.

The definitions below are a shallow embedding of the distribution /
publishing core of the repository:

* `app/utils.py`   — `generate_variation_with_gpt` (the AI-rewrite parser)
* `app/views.py`   — `MasterNewsPostPublishAPIView.post` (target resolution
  and the synchronous publishing loop), `BackgroundNewsPostPublishAPIView.post`
  (the asynchronous trigger), `NewsDistributionDeleteAPIView.delete`
* `app/tasks.py`   — `publish_master_news` (the celery worker)

External effects (the GPT call, the portal HTTP calls, file opens, clock
reads) are modelled as oracle values supplied in environment records; the
pure control flow around them is translated statement by statement.
-/

namespace Recon

/-- JSON values, as produced by Python's `json.loads`. -/
inductive Json where
  | str (s : String)
  | num (n : Int)
  | jbool (b : Bool)
  | null
  | arr (xs : List Json)
  | obj (kvs : List (String × Json))

/-- Python truthiness of a JSON value (`if data[k]: ...`). -/
def jTruthy : Json → Bool
  | .str s => !s.isEmpty
  | .num n => n != 0
  | .jbool b => b
  | .null => false
  | .arr xs => !xs.isEmpty
  | .obj kvs => !kvs.isEmpty

/-- `d.get(k)` on a dict; `none` when `d` is not a dict or the key is absent. -/
def jLookup (d : Json) (k : String) : Option Json :=
  match d with
  | .obj kvs => (kvs.find? (fun p => p.1 = k)).map (·.2)
  | _ => none

/-- The five keys `generate_variation_with_gpt` requires
(`required_keys` in `app/utils.py`). -/
def requiredKeys : List String :=
  ["title", "short_description", "description", "meta_title", "slug"]

/-- Normalization step of `generate_variation_with_gpt` (`app/utils.py`):
a list is replaced by its first element (`{}` when empty); a dict with at
least one key whose *first* key is not a known field is replaced by the
value stored under that first key; anything else is left unchanged. -/
def normalizeGpt : Json → Json
  | .arr xs =>
    match xs with
    | [] => .obj []
    | x :: _ => x
  | .obj kvs =>
    match kvs with
    | [] => .obj []
    | (k, v) :: rest =>
      if requiredKeys.contains k then .obj ((k, v) :: rest) else v
  | d => d

/-- `k in data and data[k]` for one required key: present and truthy. -/
def fieldOk (d : Json) (k : String) : Bool :=
  match jLookup d k with
  | some v => jTruthy v
  | none => false

/-- `data.get(k, ...)` after a successful validation (the key is always
present there, so the Python default argument is dead; `.null` stands in). -/
def fieldVal (d : Json) (k : String) : Json :=
  (jLookup d k).getD .null

/-- Final validation of `generate_variation_with_gpt`
(`if not all(k in data and data[k] for k in required_keys): raise`): all
five required keys must be present and truthy, else the call fails
(`ValueError`, converted to `None` by the surrounding `except`); on success
the five values are returned.  A non-dict value always fails (in Python,
`k in data` or `data[k]` raises or misses for every non-dict the code can
reach). -/
def validateExtract (d : Json) : Option (Json × Json × Json × Json × Json) :=
  match d with
  | .obj _ =>
    if requiredKeys.all (fun k => fieldOk d k) then
      some (fieldVal d "title", fieldVal d "short_description", fieldVal d "description",
            fieldVal d "meta_title", fieldVal d "slug")
    else none
  | _ => none

/-- The parse phase of `generate_variation_with_gpt`: normalization followed
by validation/extraction. -/
def parseVariation (d : Json) : Option (Json × Json × Json × Json × Json) :=
  validateExtract (normalizeGpt d)

/-- `generate_variation_with_gpt` (`app/utils.py`): the GPT call itself is an
oracle that either raises (`.error`) or yields a parsed JSON value; every
exception is caught and turned into `None`. -/
def generate_variation_with_gpt (gptOutput : Except String Json) :
    Option (Json × Json × Json × Json × Json) :=
  match gptOutput with
  | .error _ => none
  | .ok d => parseVariation d

/-- The parse phase as claim C6 words it: a JSON array yields its first
element; a dict whose *single* key is not one of the expected field names is
unwrapped one level; then the five required keys must be present and
non-empty.  Written from the claim, to be compared with `parseVariation`. -/
def claimNormalize : Json → Json
  | .arr xs =>
    match xs with
    | [] => .obj []
    | x :: _ => x
  | .obj kvs =>
    match kvs with
    | [(k, v)] => if requiredKeys.contains k then .obj [(k, v)] else v
    | l => .obj l
  | d => d

/-- `claimNormalize` followed by the same validation, i.e. claim C6's
description of the whole parse. -/
def claimParse (d : Json) : Option (Json × Json × Json × Json × Json) :=
  validateExtract (claimNormalize d)

/-- A dict holding all five required keys with non-empty values. -/
def goodFields : Json :=
  .obj [("title", .str "t"), ("short_description", .str "s"),
        ("description", .str "d"), ("meta_title", .str "m"), ("slug", .str "sl")]

/-- A two-key wrapper dict whose first key is unknown: the code unwraps it,
the claim (single-key wrappers only) does not. -/
def twoKeyWrapper : Json :=
  .obj [("wrapped", goodFields), ("extra", .null)]

/-! ## Data model (`app/models.py`) -/

/-- Status of a `NewsDistribution` row. -/
inductive DistStatus where
  | pending | success | failed
deriving DecidableEq, Repr

/-- Status of a `NewsPublishTask` row. -/
inductive JobStatus where
  | pending | started | success | failure
deriving DecidableEq, Repr

/-- The fields of `MasterNewsPost` read by the publishing paths.  Nullable
boolean columns are `Option Bool`; date/datetime values are opaque strings
(only compared and defaulted, never computed with). -/
structure Post where
  title : String
  short_description : String
  content : String
  meta_title : Option String
  slug : String
  post_tag : Option String
  post_image : Option String
  is_active : Option Bool
  latest_news : Option Bool
  upcoming_event : Option Bool
  Head_Lines : Option Bool
  articles : Option Bool
  trending : Option Bool
  BreakingNews : Option Bool
  Event : Option Bool
  Event_date : Option String
  Event_end_date : Option String
  schedule_date : Option String
  counter : Option Nat

/-- The mutable fields of a `NewsDistribution` row touched by the
publish / delete paths. -/
structure DistRecord where
  portal_category_id : Nat
  dstatus : DistStatus
  response_message : Option String
  retry_count : Nat
  portal_news_id : Option Json
  ai_title : Option Json
  ai_short_description : Option Json
  ai_content : Option Json
  ai_meta_title : Option Json
  ai_slug : Option Json
  time_taken : Nat
  started_at : Option Nat
  completed_at : Option Nat

/-- Outcome of one `requests.post/put/delete` call: either an HTTP response
(status code, body text, parsed JSON body when the body is valid JSON) or a
raised exception with its message. -/
inductive HttpResult where
  | ok (code : Nat) (body : String) (json : Option Json)
  | exn (msg : String)

/-- `int(bool(x))` on a nullable boolean column. -/
def b2i (b : Option Bool) : Nat :=
  if b = some true then 1 else 0

/-- The multipart form sent to `POST {base}/api/create-news/`.  Field names
follow the literal payload dict in `views.py` / `tasks.py`. -/
structure Payload where
  post_cat : Nat
  post_title : Json
  post_short_des : Json
  post_des : Json
  pmeta_title : Json
  pslug : Json
  post_tag : String
  author : Nat
  Event_date : String
  Eventend_date : String
  schedule_date : String
  is_active : Nat
  Event : Nat
  Head_Lines : Nat
  articles : Nat
  trending : Nat
  BreakingNews : Nat
  post_status : Nat

/-- The five rewritten fields a publish attempt sends. -/
structure Rewritten where
  title : Json
  short : Json
  body : Json
  meta : Json
  slug : Json

/-- Payload built by the synchronous view (`views.py` lines 1222–1241):
`is_active` comes from `news_post.latest_news` and `Event` from
`news_post.upcoming_event`. -/
def buildSyncPayload (p : Post) (catExternalId : Nat) (authorId : Nat)
    (rw : Rewritten) (today nowIso : String) : Payload :=
  { post_cat := catExternalId
    post_title := rw.title
    post_short_des := rw.short
    post_des := rw.body
    pmeta_title := rw.meta
    pslug := rw.slug
    post_tag := p.post_tag.getD ""
    author := authorId
    Event_date := p.Event_date.getD today
    Eventend_date := p.Event_end_date.getD today
    schedule_date := p.schedule_date.getD nowIso
    is_active := b2i p.latest_news
    Event := b2i p.upcoming_event
    Head_Lines := b2i p.Head_Lines
    articles := b2i p.articles
    trending := b2i p.trending
    BreakingNews := b2i p.BreakingNews
    post_status := p.counter.getD 0 }

/-- Payload built by the celery worker (`tasks.py` lines 174–193):
identical except `is_active` comes from `news_post.is_active` and `Event`
from `news_post.Event`. -/
def buildAsyncPayload (p : Post) (catExternalId : Nat) (authorId : Nat)
    (rw : Rewritten) (today nowIso : String) : Payload :=
  { post_cat := catExternalId
    post_title := rw.title
    post_short_des := rw.short
    post_des := rw.body
    pmeta_title := rw.meta
    pslug := rw.slug
    post_tag := p.post_tag.getD ""
    author := authorId
    Event_date := p.Event_date.getD today
    Eventend_date := p.Event_end_date.getD today
    schedule_date := p.schedule_date.getD nowIso
    is_active := b2i p.is_active
    Event := b2i p.Event
    Head_Lines := b2i p.Head_Lines
    articles := b2i p.articles
    trending := b2i p.trending
    BreakingNews := b2i p.BreakingNews
    post_status := p.counter.getD 0 }

/-! ## Portal gateway client -/

/-- Normalized result of one gateway call. -/
structure GwResult where
  gwSuccess : Bool
  gwMessage : String
  gwNewsId : Option Json

/-- `resp_json.get("data", {}).get("id")`: `none` when `data` is absent or
not a dict (in the source an `AttributeError` caught by the bare `except`). -/
def dataId (d : Json) : Option Json :=
  match jLookup d "data" with
  | some (.obj dkvs) => jLookup (.obj dkvs) "id"
  | _ => none

/-- Remote-id extraction in the synchronous view (`views.py` 1259–1264):
runs on every response; requires the body to be a JSON dict whose `status`
entry is truthy, then reads `data.id`.  Parse failures leave the id `none`. -/
def extractIdSync (j : Option Json) : Option Json :=
  match j with
  | some (.obj kvs) =>
    if jTruthy ((jLookup (.obj kvs) "status").getD .null) then dataId (.obj kvs)
    else none
  | _ => none

/-- Remote-id extraction in the celery worker (`tasks.py` 208–213): only on
success, reads `data.id` from any JSON dict with no check of the `status`
flag; non-dict or non-JSON bodies yield no id. -/
def extractIdAsync (j : Option Json) : Option Json :=
  match j with
  | some (.obj kvs) => dataId (.obj kvs)
  | _ => none

/-- The create call as interpreted by the synchronous view
(`views.py` 1252–1268): exceptions become `(success=false, str(e))`;
success is HTTP 200/201; the id is extracted from the JSON body. -/
def createGatewaySync (h : HttpResult) : GwResult :=
  match h with
  | .exn e => ⟨false, e, none⟩
  | .ok code body j => ⟨code == 200 || code == 201, body, extractIdSync j⟩

/-- The create call as interpreted by the celery worker
(`tasks.py` 200–217): exceptions become `(success=false, str(e))`;
success is HTTP 200/201; the id is extracted only on success and without
consulting the `status` flag. -/
def createGatewayAsync (h : HttpResult) : GwResult :=
  match h with
  | .exn e => ⟨false, e, none⟩
  | .ok code body j =>
    let s := code == 200 || code == 201
    ⟨s, body, if s then extractIdAsync j else none⟩

/-- The update call (`views.py` 3421–3427): success is HTTP 200/201,
exceptions become `(false, str(e))`. -/
def updateGateway (h : HttpResult) : Bool × String :=
  match h with
  | .exn e => (false, e)
  | .ok code body _ => (code == 200 || code == 201, body)

/-- The delete call (`views.py` 3467–3473): success is HTTP 200/204,
exceptions become `(false, str(e))`. -/
def deleteGateway (h : HttpResult) : Bool × String :=
  match h with
  | .exn e => (false, e)
  | .ok code body _ => (code == 200 || code == 204, body)

/-! ## Delivery-record delete endpoint (`NewsDistributionDeleteAPIView`) -/

/-- Outcome of `NewsDistributionDeleteAPIView.delete`: either the local
`NewsDistribution` row was deleted (with the success message) or it was kept
and an error response returned. -/
inductive DeleteOutcome where
  | deletedLocally (resp : String)
  | kept (errMsg : String)
deriving Repr

/-- `NewsDistributionDeleteAPIView.delete` (`views.py` 3456–3486): a record
without `portal_news_id` is deleted locally at once; otherwise the portal
delete call runs and the local row is deleted only when it succeeds. -/
def deleteDistribution (portal_news_id : Option String) (h : HttpResult) :
    DeleteOutcome :=
  match portal_news_id with
  | none => .deletedLocally "Deleted locally (no portal ID found)."
  | some _ =>
    match deleteGateway h with
    | (true, resp) => .deletedLocally resp
    | (false, resp) => .kept ("Failed to delete from portal: " ++ resp)

/-- Whether the local row was deleted. -/
def DeleteOutcome.isDeleted : DeleteOutcome → Bool
  | .deletedLocally _ => true
  | .kept _ => false

/-- Portal-side delete success as a predicate on the raw HTTP outcome. -/
def deleteCallOk (h : HttpResult) : Bool :=
  match h with
  | .ok code _ _ => code == 200 || code == 204
  | .exn _ => false

/-! ## Target resolver (`MasterNewsPostPublishAPIView.post`, `views.py` 1055–1121) -/

/-- A `PortalCategory` row (only the columns the resolver needs). -/
structure PortalCategoryRow where
  pcId : Nat
  pcPortalId : Nat
deriving DecidableEq, Repr

/-- A `MasterCategoryMapping` row. -/
structure CategoryMapping where
  cmMasterId : Nat
  cmPortalCategoryId : Nat
  cmUseDefault : Bool
deriving DecidableEq, Repr

/-- A `CrossPortalMapping` row (directed edge source → target). -/
structure CrossMapping where
  xSourceId : Nat
  xTargetId : Nat
deriving DecidableEq, Repr

/-- The configuration store, with each table in database iteration order. -/
structure Db where
  portalCategories : List PortalCategoryRow
  masterMappings : List CategoryMapping
  crossMappings : List CrossMapping
deriving Repr

/-- The `targets` dict of the resolver: category id ↦ `use_default_content`,
in insertion order (Python dicts preserve insertion order and keep a key's
position on overwrite). -/
abbrev TargetMap := List (Nat × Bool)

/-- `targets[k] = v`: overwrite in place when the key exists, else append. -/
def dictSet (m : TargetMap) (k : Nat) (v : Bool) : TargetMap :=
  if m.any (fun p => p.1 == k) then
    m.map (fun p => if p.1 = k then (k, v) else p)
  else m ++ [(k, v)]

/-- `if k not in targets: targets[k] = v`. -/
def dictSetIfAbsent (m : TargetMap) (k : Nat) (v : Bool) : TargetMap :=
  if m.any (fun p => p.1 == k) then m else m ++ [(k, v)]

/-- Insert each id of a list with `dictSetIfAbsent` and flag `false`
(the shape of both the cross-portal-target loop and the manual loop). -/
def insertAbsentAll (m : TargetMap) (ids : List Nat) : TargetMap :=
  ids.foldl (fun acc k => dictSetIfAbsent acc k false) m

/-- Source 1 of the resolver: every `MasterCategoryMapping` row of the given
master category inserts its portal category with the row's
`use_default_content` flag.  `if master_category_id:` treats `None` and `0`
as absent. -/
def source1 (db : Db) (masterCategoryId : Option Nat) : TargetMap :=
  match masterCategoryId with
  | none => []
  | some m =>
    if m = 0 then []
    else (db.masterMappings.filter (fun r => r.cmMasterId == m)).foldl
      (fun acc r => dictSet acc r.cmPortalCategoryId r.cmUseDefault) []

/-- Source 2 of the resolver: when a (truthy) trigger id refers to an
existing `PortalCategory`, the trigger itself is force-inserted with
`use_default_content = True`, then every cross-portal target of the trigger
is inserted only if absent, with flag `false`. -/
def addCross (db : Db) (m : TargetMap) (triggerId : Option Nat) : TargetMap :=
  match triggerId with
  | none => m
  | some t =>
    if t = 0 then m
    else if db.portalCategories.any (fun c => c.pcId == t) then
      insertAbsentAll (dictSet m t true)
        ((db.crossMappings.filter (fun r => r.xSourceId == t)).map (·.xTargetId))
    else m

/-- Source 3 of the resolver: manual extra ids.  The queryset
`PortalCategory.objects.filter(id__in=manual_ids)` iterates in database
order, inserting each existing selected category only if absent. -/
def addManual (db : Db) (m : TargetMap) (manualIds : List Nat) : TargetMap :=
  insertAbsentAll m
    ((db.portalCategories.filter (fun c => manualIds.contains c.pcId)).map (·.pcId))

/-- The full resolver (`views.py` 1058–1118): the three sources in order,
then every excluded id dropped. -/
def resolveTargets (db : Db) (masterCategoryId triggerId : Option Nat)
    (manualIds excludedIds : List Nat) : TargetMap :=
  (addManual db (addCross db (source1 db masterCategoryId) triggerId) manualIds).filter
    (fun p => !excludedIds.contains p.1)

/-- The ordered merge as claim C2 words it, written from the claim: source
1, then — when a trigger id is given — the unconditional trigger insertion
with `true` followed by the if-absent insertion of its cross-portal
targets, then the if-absent insertion of the manual ids as listed, then the
exclusion filter.  To be compared with `resolveTargets`. -/
def claimResolve (db : Db) (masterCategoryId triggerId : Option Nat)
    (manualIds excludedIds : List Nat) : TargetMap :=
  (insertAbsentAll
    (match triggerId with
     | none => source1 db masterCategoryId
     | some t =>
       insertAbsentAll (dictSet (source1 db masterCategoryId) t true)
         ((db.crossMappings.filter (fun r => r.xSourceId == t)).map (·.xTargetId)))
    manualIds).filter (fun p => !excludedIds.contains p.1)

/-- Lookup in the resolved target map. -/
def tmLookup (m : TargetMap) (k : Nat) : Option Bool :=
  (m.find? (fun p => p.1 == k)).map (·.2)

/-! ## Synchronous publish orchestrator
(`MasterNewsPostPublishAPIView.post`, `views.py` 1126–1292) -/

/-- One entry of the batch result list (`results.append({...})`). -/
structure ResultEntry where
  rePortal : String
  reCategory : String
  reSuccess : Bool
  reResponse : String

/-- The world one target's iteration of the synchronous loop interacts with:
the resolved target itself, the pre-existing delivery record for
`(news_post, portal)` if any, the configuration/oracle values, and the
outcomes of the external calls. -/
structure SyncTargetEnv where
  catId : Nat
  catName : String
  catExternalId : Nat
  portalName : String
  useDefaultContent : Bool
  existing : Option DistRecord
  customImagePath : Option String
  portalPromptText : Option String
  globalPromptText : Option String
  gpt : String → Except String Json
  portalUserId : Option Nat
  imageReadable : Bool
  http : HttpResult
  elapsed : Nat
  now : Nat
  today : String
  nowIso : String

/-- `NewsDistribution.objects.get_or_create(...)` (`views.py` 1133–1142):
returns the existing row, or a fresh `PENDING` row with message `"Queued"`,
together with the `created` flag. -/
def acquireRecord (env : SyncTargetEnv) : DistRecord × Bool :=
  match env.existing with
  | some r => (r, false)
  | none =>
    ({ portal_category_id := env.catId
       dstatus := .pending
       response_message := some "Queued"
       retry_count := 0
       portal_news_id := none
       ai_title := none
       ai_short_description := none
       ai_content := none
       ai_meta_title := none
       ai_slug := none
       time_taken := 0
       started_at := some env.now
       completed_at := none }, true)

/-- Category refresh (`views.py` 1144–1147): an existing row whose category
differs from the newly resolved one is updated in place. -/
def refreshCategory (r : DistRecord) (created : Bool) (catId : Nat) : DistRecord :=
  if !created && r.portal_category_id != catId then
    { r with portal_category_id := catId }
  else r

/-- Retry re-arm (`views.py` 1159–1163): a `FAILED` row gets
`retry_count += 1` and is reset to `PENDING` before the new attempt. -/
def rearm (r : DistRecord) : DistRecord :=
  if r.dstatus = .failed then
    { r with retry_count := r.retry_count + 1, dstatus := .pending }
  else r

/-- Default-content passthrough (`views.py` 1187–1192 / `tasks.py` 107–112):
the master fields verbatim, `meta_title` falling back to the title. -/
def defaultContent (p : Post) : Rewritten :=
  { title := .str p.title
    short := .str p.short_description
    body := .str p.content
    meta := .str (p.meta_title.getD p.title)
    slug := .str p.slug }

/-- Image selection of the synchronous loop (`views.py` 1171–1183): the
per-(post, portal) custom image when present, else the master image. -/
def syncImagePath (env : SyncTargetEnv) (p : Post) : Option String :=
  match env.customImagePath with
  | some path => some path
  | none => p.post_image

/-- The parsed AI tuple as a `Rewritten` record. -/
def tupleToRewritten (t : Json × Json × Json × Json × Json) : Rewritten :=
  { title := t.1, short := t.2.1, body := t.2.2.1, meta := t.2.2.2.1, slug := t.2.2.2.2 }

/-- The `try:` body of one synchronous iteration (`views.py` 1167–1264):
image selection, content transformation, credential lookup, payload build,
file preparation (a missing file is swallowed), the gateway call and id
extraction.  A raised exception is the `.error` case, carrying `str(e)`. -/
def syncAttempt (p : Post) (username : String) (env : SyncTargetEnv) :
    Except String (Rewritten × Payload × Option String × GwResult) := do
  let imagePath := syncImagePath env p
  let rw ←
    if env.useDefaultContent then
      pure (defaultContent p)
    else
      let promptText := (env.portalPromptText.orElse fun _ => env.globalPromptText).getD
        "Rewrite for clarity"
      match generate_variation_with_gpt (env.gpt promptText) with
      | none => throw "AI generation failed"
      | some t => pure (tupleToRewritten t)
  let authorId ←
    match env.portalUserId with
    | none => throw ("User " ++ username ++ " not mapped to portal " ++ env.portalName)
    | some a => pure a
  let payload := buildSyncPayload p env.catExternalId authorId rw env.today env.nowIso
  let files := match imagePath with
    | some path => if env.imageReadable then some path else none
    | none => none
  match env.http with
  | .exn e => throw e
  | .ok _ _ _ => pure (rw, payload, files, createGatewaySync env.http)

/-- `str(portal_news_id) if portal_news_id else None`: a falsy extracted id
is stored as `None`. -/
def storedId (i : Option Json) : Option Json :=
  match i with
  | some v => if jTruthy v then some v else none
  | none => none

/-- The save block of one synchronous iteration (`views.py` 1270–1280):
status, response message, elapsed time and completion timestamp always;
`ai_title`, `ai_slug` and the remote id only on success. -/
def syncFinalize (r : DistRecord) (env : SyncTargetEnv)
    (out : Except String (Rewritten × Payload × Option String × GwResult)) :
    DistRecord × Bool × String :=
  match out with
  | .error e =>
    ({ r with dstatus := .failed, response_message := some e,
              time_taken := env.elapsed, completed_at := some env.now }, false, e)
  | .ok (rw, _, _, gw) =>
    if gw.gwSuccess then
      ({ r with dstatus := .success, response_message := some gw.gwMessage,
                time_taken := env.elapsed, completed_at := some env.now,
                ai_title := some rw.title, ai_slug := some rw.slug,
                portal_news_id := storedId gw.gwNewsId }, true, gw.gwMessage)
    else
      ({ r with dstatus := .failed, response_message := some gw.gwMessage,
                time_taken := env.elapsed, completed_at := some env.now }, false, gw.gwMessage)

/-- One full iteration of the synchronous loop (`views.py` 1128–1287):
acquire / refresh the delivery record, short-circuit on `SUCCESS`, re-arm on
`FAILED`, run the attempt with its target-level exception handler, persist
the outcome and produce the batch-result entry. -/
def syncProcessTarget (p : Post) (username : String) (env : SyncTargetEnv) :
    ResultEntry × DistRecord :=
  let rc := acquireRecord env
  let r1 := refreshCategory rc.1 rc.2 env.catId
  if r1.dstatus = .success then
    ({ rePortal := env.portalName, reCategory := env.catName,
       reSuccess := true, reResponse := "Already published." }, r1)
  else
    let r2 := rearm r1
    let fin := syncFinalize r2 env (syncAttempt p username env)
    ({ rePortal := env.portalName, reCategory := env.catName,
       reSuccess := fin.2.1, reResponse := fin.2.2 }, fin.1)

/-- The synchronous publishing loop: one iteration per resolved target, in
resolution order, each appending exactly one result. -/
def syncPublishLoop (p : Post) (username : String) :
    List SyncTargetEnv → List (ResultEntry × DistRecord)
  | [] => []
  | env :: rest => syncProcessTarget p username env :: syncPublishLoop p username rest

/-- Overall response of the synchronous view. -/
inductive SyncResponse where
  | errorResp (msg : String)
  | okResp (results : List (ResultEntry × DistRecord))

/-- `MasterNewsPostPublishAPIView.post` after input cleaning: resolve the
targets, abort with the no-targets error when the list is empty, otherwise
run the loop (`views.py` 1112–1289).  `envOf` supplies each resolved
target's environment. -/
def masterNewsPublish (db : Db) (masterCategoryId triggerId : Option Nat)
    (manualIds excludedIds : List Nat) (p : Post) (username : String)
    (envOf : Nat × Bool → SyncTargetEnv) : SyncResponse :=
  let tl := resolveTargets db masterCategoryId triggerId manualIds excludedIds
  if tl.isEmpty then .errorResp "No valid portal categories found to publish to."
  else .okResp (syncPublishLoop p username (tl.map envOf))

/-! ## Asynchronous worker (`publish_master_news`, `app/tasks.py`) -/

/-- The world one mapping's iteration of the worker loop interacts with.
`lookupOk` is the `Portal.objects.get` / `PortalCategory.objects.get` pair:
portal name, category name and category external id, or the exception text
when either lookup raises.  `imageOpen` is the outcome of the *unguarded*
`open(news_post.post_image.path, "rb")` on `tasks.py` line 195, attempted
only when the post has an image. -/
structure AsyncTargetEnv where
  mappingPortalId : Nat
  mappingCategoryId : Nat
  useDefault : Bool
  lookupOk : Except String (String × String × Nat)
  existing : Option DistRecord
  portalPromptText : Option String
  globalPromptText : Option String
  gpt : String → Except String Json
  portalUserId : Option Nat
  imageOpen : Except String Unit
  http : HttpResult
  elapsed : Nat
  now : Nat
  today : String
  nowIso : String

/-- `get_or_create` in the worker (`tasks.py` 80–89): the defaults carry no
response message and the worker never refreshes the category of an existing
row. -/
def asyncAcquireRecord (env : AsyncTargetEnv) : DistRecord :=
  match env.existing with
  | some r => r
  | none =>
    { portal_category_id := env.mappingCategoryId
      dstatus := .pending
      response_message := none
      retry_count := 0
      portal_news_id := none
      ai_title := none
      ai_short_description := none
      ai_content := none
      ai_meta_title := none
      ai_slug := none
      time_taken := 0
      started_at := some env.now
      completed_at := none }

/-- CPython's message for unpacking `None` into a tuple, the `str(e)` the
worker's AI handler sees when `generate_variation_with_gpt` returns `None`. -/
def unpackNoneMsg : String := "cannot unpack non-iterable NoneType object"

/-- Image selection of the worker (`tasks.py` line 195): always the master
image; the per-(post, portal) custom image is never consulted. -/
def asyncImagePath (p : Post) : Option String :=
  p.post_image

/-- Content transformation in the worker (`tasks.py` 106–128): verbatim
when `use_default`, else an AI rewrite with prompt fallback `""`; a `None`
from the AI helper makes the tuple unpacking raise (handled by the caller). -/
def asyncContent (p : Post) (env : AsyncTargetEnv) : Option Rewritten :=
  if env.useDefault then some (defaultContent p)
  else
    (generate_variation_with_gpt
      (env.gpt ((env.portalPromptText.orElse fun _ => env.globalPromptText).getD ""))).map
      tupleToRewritten

/-- The FAILED update of the worker's AI and credential handlers
(`tasks.py` 133–136 and 159–162): status, message and completion time only
— no retry increment, no elapsed time. -/
def asyncFailUpdate (r0 : DistRecord) (env : AsyncTargetEnv) (msg : String) : DistRecord :=
  { r0 with dstatus := .failed, response_message := some msg,
            completed_at := some env.now }

/-- File preparation in the worker (`tasks.py` 195): the *unguarded* `open`
raises out of the task when the master image file cannot be opened. -/
def asyncFiles (p : Post) (env : AsyncTargetEnv) : Except String (Option String) :=
  match asyncImagePath p with
  | none => .ok none
  | some path =>
    match env.imageOpen with
    | .error e => .error e
    | .ok _ => .ok (some path)

/-- `requests.post(api_url, data=payload, files=files, ...)` plus the
response interpretation: the payload and file parts are consumed by the
HTTP oracle. -/
def asyncSend (_payload : Payload) (_files : Option String) (env : AsyncTargetEnv) :
    GwResult :=
  createGatewayAsync env.http

/-- The final record update of a worker attempt (`tasks.py` 222–232): on
success *and* on failure, the status, message, all five `ai_*` fields, the
raw remote id, elapsed time and completion time are written. -/
def asyncFinalize (r0 : DistRecord) (env : AsyncTargetEnv) (rw : Rewritten)
    (gw : GwResult) : DistRecord :=
  { r0 with
    dstatus := if gw.gwSuccess then .success else .failed
    response_message := some gw.gwMessage
    ai_title := some rw.title
    ai_short_description := some rw.short
    ai_content := some rw.body
    ai_meta_title := some rw.meta
    ai_slug := some rw.slug
    portal_news_id := gw.gwNewsId
    time_taken := env.elapsed
    completed_at := some env.now }

/-- One worker iteration after the portal/category lookup succeeded, on the
acquired record `r0` (`tasks.py` 91–239): skip on SUCCESS (no re-arm of a
FAILED row), AI failure and missing credential fail only this target, then
file preparation (whose exception propagates), send, and the final update. -/
def asyncAfterLookup (p : Post) (env : AsyncTargetEnv) (portalName catName : String)
    (catExternalId : Nat) (r0 : DistRecord) :
    Except String (ResultEntry × Option DistRecord) :=
  if r0.dstatus = .success then
    .ok ({ rePortal := portalName, reCategory := catName,
           reSuccess := true, reResponse := "Already published" }, some r0)
  else
    match asyncContent p env with
    | none =>
      .ok ({ rePortal := portalName, reCategory := catName, reSuccess := false,
             reResponse := "AI failed: " ++ unpackNoneMsg },
           some (asyncFailUpdate r0 env ("AI failed: " ++ unpackNoneMsg)))
    | some rw =>
      match env.portalUserId with
      | none =>
        .ok ({ rePortal := portalName, reCategory := "", reSuccess := false,
               reResponse := "Portal user not mapped" },
             some (asyncFailUpdate r0 env "Portal user not mapped"))
      | some authorId =>
        match asyncFiles p env with
        | .error e => .error e
        | .ok files =>
          .ok ({ rePortal := portalName, reCategory := catName,
                 reSuccess := (asyncSend (buildAsyncPayload p catExternalId authorId rw
                   env.today env.nowIso) files env).gwSuccess,
                 reResponse := (asyncSend (buildAsyncPayload p catExternalId authorId rw
                   env.today env.nowIso) files env).gwMessage },
               some (asyncFinalize r0 env rw (asyncSend (buildAsyncPayload p
                 catExternalId authorId rw env.today env.nowIso) files env)))

/-- One iteration of the worker loop (`tasks.py` 60–239).  The source's
result dicts are heterogeneous: the invalid-mapping entry carries the
numeric `portal_id` and no category, and the missing-credential entry omits
the category key; both are modelled with the category field empty.  The
`.error` case is an exception escaping the iteration (only the unguarded
image `open` can raise there). -/
def asyncProcessTarget (p : Post) (env : AsyncTargetEnv) :
    Except String (ResultEntry × Option DistRecord) :=
  match env.lookupOk with
  | .error e =>
    .ok ({ rePortal := toString env.mappingPortalId, reCategory := "",
           reSuccess := false, reResponse := "Invalid mapping: " ++ e }, none)
  | .ok (portalName, catName, catExternalId) =>
    asyncAfterLookup p env portalName catName catExternalId (asyncAcquireRecord env)

/-- The worker loop over all mappings: an exception in one iteration
propagates and abandons the rest. -/
def asyncLoop (p : Post) : List AsyncTargetEnv →
    Except String (List (ResultEntry × Option DistRecord))
  | [] => .ok []
  | env :: rest =>
    match asyncProcessTarget p env with
    | .error e => .error e
    | .ok x =>
      match asyncLoop p rest with
      | .error e => .error e
      | .ok xs => .ok (x :: xs)

/-- Observable outcome of one worker run: the final `NewsPublishTask`
status, the exception that escaped the task (if any), and the task's return
value. -/
structure WorkerOutcome where
  jobStatus : JobStatus
  raised : Option String
  returned : Option (Bool × List ResultEntry)

/-- `publish_master_news` (`app/tasks.py`): the job record moves to
`STARTED` on pickup; a failure to load the post or user marks it `FAILURE`
and returns; otherwise the loop runs, and on completion the job is marked
`SUCCESS` regardless of per-target outcomes.  An exception escaping the
loop leaves the job in `STARTED`. -/
def runPublishTask (load : Except String Post) (envs : List AsyncTargetEnv) :
    WorkerOutcome :=
  match load with
  | .error _ => { jobStatus := .failure, raised := none, returned := some (false, []) }
  | .ok p =>
    match asyncLoop p envs with
    | .error e => { jobStatus := .started, raised := some e, returned := none }
    | .ok rs => { jobStatus := .success, raised := none,
                  returned := some (true, rs.map (·.1)) }

/-! ## Asynchronous trigger (`BackgroundNewsPostPublishAPIView.post`,
`views.py` 3858–3973) -/

/-- One element of `mappings_data` handed to the celery task. -/
structure AsyncMapping where
  amPortalId : Nat
  amCategoryId : Nat
  amUseDefault : Bool
deriving DecidableEq, Repr

/-- Portal id of a portal category (`portal_category.portal.id`; the foreign
key always resolves, `0` is an unreachable fallback). -/
def portalIdOf (db : Db) (catId : Nat) : Nat :=
  ((db.portalCategories.find? (fun c => c.pcId == catId)).map (·.pcPortalId)).getD 0

/-- Response of the asynchronous trigger: an error, or a job enqueued with
the given mappings and a `NewsPublishTask` row created in the given state. -/
inductive BgResponse where
  | bgError (msg : String)
  | bgEnqueued (mappings : List AsyncMapping) (jobCreated : JobStatus)
deriving DecidableEq, Repr

/-- Python truthiness of the `master_category_id` input
(`master_category_id = request.data.get(...) or news_post.master_category_id`). -/
def bgMcTruthy (mc : Option Nat) : Bool :=
  match mc with
  | some m => m != 0
  | none => false

/-- Flow A's mapping list (`views.py` 3886–3919): every
`MasterCategoryMapping` row of the master category, plus the manually
selected categories not already covered by those rows. -/
def bgFlowA (db : Db) (m : Nat) (manualIds : List Nat) : List AsyncMapping :=
  (db.masterMappings.filter (fun r => r.cmMasterId == m)).map (fun r =>
    { amPortalId := portalIdOf db r.cmPortalCategoryId
      amCategoryId := r.cmPortalCategoryId
      amUseDefault := r.cmUseDefault }) ++
  (if manualIds.isEmpty then []
   else
     (db.portalCategories.filter (fun c =>
       manualIds.contains c.pcId &&
       !((db.masterMappings.filter (fun r => r.cmMasterId == m)).map
           (·.cmPortalCategoryId)).contains c.pcId)).map (fun c =>
         { amPortalId := c.pcPortalId, amCategoryId := c.pcId, amUseDefault := false }))

/-- Flow B's mapping list (`views.py` 3931–3940): the existing manually
selected categories, all AI-rewritten. -/
def bgFlowB (db : Db) (manualIds : List Nat) : List AsyncMapping :=
  (db.portalCategories.filter (fun c => manualIds.contains c.pcId)).map (fun c =>
    { amPortalId := c.pcPortalId, amCategoryId := c.pcId, amUseDefault := false })

/-- Mapping-list computation of the asynchronous trigger with its
pre-exclusion error cases (`views.py` 3881–3940). -/
def backgroundFlow (db : Db) (assigned : Bool) (masterCategoryId : Option Nat)
    (manualIds : List Nat) : Except String (List AsyncMapping) :=
  if bgMcTruthy masterCategoryId then
    if !assigned then .error "Not assigned to this category"
    else .ok (bgFlowA db (masterCategoryId.getD 0) manualIds)
  else
    if manualIds.isEmpty then
      .error "portal_category_ids required when master_category_id not provided"
    else if (db.portalCategories.filter (fun c => manualIds.contains c.pcId)).isEmpty then
      .error "Invalid portal categories"
    else .ok (bgFlowB db manualIds)

/-- `BackgroundNewsPostPublishAPIView.post` after input cleaning
(`views.py` 3881–3970): flow A (master category, with the assignment check
and manual extras) or flow B (direct portal categories only), then the
exclusion filter, then the task is enqueued and a `PENDING`
`NewsPublishTask` row created — with no emptiness check after exclusion. -/
def backgroundPublish (db : Db) (assigned : Bool) (masterCategoryId : Option Nat)
    (manualIds excludedIds : List Nat) : BgResponse :=
  match backgroundFlow db assigned masterCategoryId manualIds with
  | .error e => .bgError e
  | .ok mappings =>
    .bgEnqueued (mappings.filter (fun mp => !excludedIds.contains mp.amCategoryId)) .pending

/-! ## Concrete data for the evaluations below -/

/-- A concrete content item.  Note `latest_news ≠ is_active` and
`upcoming_event ≠ Event`. -/
def post0 : Post :=
  { title := "T", short_description := "S", content := "C",
    meta_title := none, slug := "t-slug", post_tag := none,
    post_image := some "master.jpg",
    is_active := some true, latest_news := some false,
    upcoming_event := some false, Head_Lines := none, articles := none,
    trending := none, BreakingNews := none, Event := some true,
    Event_date := none, Event_end_date := none, schedule_date := none,
    counter := none }

/-- A create-response body whose `status` flag is falsy but whose `data.id`
is present. -/
def flagFalseBody : Json :=
  .obj [("status", .jbool false), ("data", .obj [("id", .num 7)])]

/-- A baseline environment for one synchronous target: fresh record,
default content, matched credential, gateway answering HTTP 500. -/
def syncEnv0 : SyncTargetEnv :=
  { catId := 2, catName := "CatB", catExternalId := 9, portalName := "P1",
    useDefaultContent := true, existing := none, customImagePath := none,
    portalPromptText := none, globalPromptText := none,
    gpt := fun _ => Except.error "gpt down", portalUserId := some 4,
    imageReadable := true, http := .ok 500 "Invalid category" none,
    elapsed := 3, now := 10, today := "2026-01-01", nowIso := "2026-01-01T00:00:00" }

/-- An already-successful delivery record whose category (1) differs from
the newly resolved one (2). -/
def recSuccess1 : DistRecord :=
  { portal_category_id := 1, dstatus := .success, response_message := some "ok",
    retry_count := 0, portal_news_id := some (.num 11), ai_title := none,
    ai_short_description := none, ai_content := none, ai_meta_title := none,
    ai_slug := none, time_taken := 2, started_at := some 1, completed_at := some 2 }

/-- A failed delivery record with `retry_count = 0`. -/
def recFailed0 : DistRecord :=
  { portal_category_id := 2, dstatus := .failed, response_message := some "boom",
    retry_count := 0, portal_news_id := none, ai_title := none,
    ai_short_description := none, ai_content := none, ai_meta_title := none,
    ai_slug := none, time_taken := 2, started_at := some 1, completed_at := some 2 }

/-- A baseline environment for one worker target, mirroring `syncEnv0`. -/
def asyncEnv0 : AsyncTargetEnv :=
  { mappingPortalId := 1, mappingCategoryId := 2, useDefault := true,
    lookupOk := .ok ("P1", "CatB", 9), existing := none,
    portalPromptText := none, globalPromptText := none,
    gpt := fun _ => Except.error "gpt down", portalUserId := some 4,
    imageOpen := .ok (), http := .ok 500 "Invalid category" none,
    elapsed := 3, now := 10, today := "2026-01-01", nowIso := "2026-01-01T00:00:00" }

/-- A synchronous environment whose existing record is already SUCCESS with
a differing category. -/
def envC3 : SyncTargetEnv := { syncEnv0 with existing := some recSuccess1 }

/-- A worker environment whose existing record is FAILED. -/
def envC4 : AsyncTargetEnv := { asyncEnv0 with existing := some recFailed0 }

/-- A synchronous environment with no matched portal credential. -/
def envNoCred : SyncTargetEnv := { syncEnv0 with portalUserId := none }

/-- A worker environment whose image `open` raises. -/
def envC8 : AsyncTargetEnv :=
  { asyncEnv0 with imageOpen := .error "No such file or directory" }

/-- A synchronous environment carrying a per-portal custom image. -/
def envC9s : SyncTargetEnv := { syncEnv0 with customImagePath := some "custom.jpg" }

/-- `post0` with its sync-payload flag sources aligned with the async ones. -/
def postAligned : Post :=
  { post0 with latest_news := post0.is_active, upcoming_event := post0.Event }

/-- A store with a single portal category, for the asynchronous-trigger
evaluation. -/
def dbOneCat : Db :=
  { portalCategories := [⟨1, 1⟩], masterMappings := [], crossMappings := [] }

/-- The store of the spec's resolution scenario: master category 5 maps to
category 1 (verbatim `false`) and category 2 (verbatim `true`); category 3
exists for manual selection. -/
def dbScenario : Db :=
  { portalCategories := [⟨1, 1⟩, ⟨2, 2⟩, ⟨3, 3⟩]
    masterMappings := [⟨5, 1, false⟩, ⟨5, 2, true⟩]
    crossMappings := [] }

/-! ## Theorems -/

/-- Category refresh never changes the status. -/
theorem refreshCategory_dstatus (r : DistRecord) (c : Bool) (k : Nat) :
    (refreshCategory r c k).dstatus = r.dstatus := by
  unfold refreshCategory; split <;> rfl

/-- Category refresh never changes the retry counter. -/
theorem refreshCategory_retry (r : DistRecord) (c : Bool) (k : Nat) :
    (refreshCategory r c k).retry_count = r.retry_count := by
  unfold refreshCategory; split <;> rfl

/-- The final save of a synchronous attempt never changes the retry
counter. -/
theorem syncFinalize_retry (r : DistRecord) (env : SyncTargetEnv)
    (out : Except String (Rewritten × Payload × Option String × GwResult)) :
    (syncFinalize r env out).1.retry_count = r.retry_count := by
  rcases out with e | ⟨rw, pl, fs, gw⟩
  · rfl
  · cases hgw : gw.gwSuccess <;> simp [syncFinalize, hgw]

/-- A target whose record is already SUCCESS is fully short-circuited:
fixed result entry, and the record only gets its category refreshed. -/
theorem syncSkip_eq (p : Post) (u : String) (env : SyncTargetEnv) (r : DistRecord)
    (h1 : env.existing = some r) (h2 : r.dstatus = .success) :
    syncProcessTarget p u env =
      ({ rePortal := env.portalName, reCategory := env.catName,
         reSuccess := true, reResponse := "Already published." },
       { r with portal_category_id := env.catId }) := by
  have hacq : acquireRecord env = (r, false) := by simp [acquireRecord, h1]
  have hr1 : refreshCategory r false env.catId = { r with portal_category_id := env.catId } := by
    unfold refreshCategory
    by_cases hc : r.portal_category_id = env.catId
    · simp [hc]
      rw [← hc]
    · have hb : (r.portal_category_id != env.catId) = true := by simpa using hc
      simp [hb]
  simp [syncProcessTarget, hacq, hr1, h2]

/-- C1: the synchronous loop is a pure map over the resolved targets: it
produces exactly one entry per target in resolution order, and a target
whose processing raises (transform failure, missing credential, gateway
error) yields a FAILED outcome for that target alone while the loop
continues. -/
theorem c1_partial_failure_isolation (p : Post) (u : String)
    (envs : List SyncTargetEnv) :
    syncPublishLoop p u envs = envs.map (syncProcessTarget p u) ∧
    (syncPublishLoop p u envs).length = envs.length ∧
    (∀ env ∈ envs, ∀ e, syncAttempt p u env = .error e →
      (refreshCategory (acquireRecord env).1 (acquireRecord env).2 env.catId).dstatus ≠
        .success →
      (syncProcessTarget p u env).1.reSuccess = false ∧
      (syncProcessTarget p u env).1.reResponse = e ∧
      (syncProcessTarget p u env).2.dstatus = .failed) := by
  have hmap : syncPublishLoop p u envs = envs.map (syncProcessTarget p u) := by
    induction envs with
    | nil => rfl
    | cons a t ih => simp [syncPublishLoop, ih]
  refine ⟨hmap, by rw [hmap]; exact List.length_map _ _, ?_⟩
  intro env _ e he hs
  simp [syncProcessTarget, hs, he, syncFinalize]

/-- C1 witness: a missing credential fails its own target with the error
text, and a one-target batch has one entry. -/
theorem c1_partial_failure_isolation_witness :
    ((syncProcessTarget post0 "u" envNoCred).1.reSuccess = false ∧
     (syncProcessTarget post0 "u" envNoCred).1.reResponse =
       "User u not mapped to portal P1" ∧
     (syncProcessTarget post0 "u" envNoCred).2.dstatus = .failed) ∧
    (syncPublishLoop post0 "u" [envNoCred]).length = 1 := by
  have h := c1_partial_failure_isolation post0 "u" [envNoCred]
  exact ⟨h.2.2 envNoCred (List.mem_singleton.mpr rfl)
    "User u not mapped to portal P1" rfl (by decide), h.2.1⟩

/-- C3 (amended): a publish invocation on a target whose delivery record is
SUCCESS reports "Already published.", makes no AI and no gateway call (its
outcome is independent of both oracles), and leaves the record unchanged
except that `portal_category` is refreshed in place when the resolved
category differs from the stored one. -/
theorem c3_success_short_circuit (p : Post) (u : String) (env : SyncTargetEnv)
    (r : DistRecord) (h1 : env.existing = some r) (h2 : r.dstatus = .success) :
    (syncProcessTarget p u env).1 =
      { rePortal := env.portalName, reCategory := env.catName,
        reSuccess := true, reResponse := "Already published." } ∧
    (syncProcessTarget p u env).2 = { r with portal_category_id := env.catId } ∧
    (∀ h', syncProcessTarget p u { env with http := h' } = syncProcessTarget p u env) ∧
    (∀ g, syncProcessTarget p u { env with gpt := g } = syncProcessTarget p u env) := by
  have hmain := syncSkip_eq p u env r h1 h2
  refine ⟨by rw [hmain], by rw [hmain], ?_, ?_⟩
  · intro h'
    rw [hmain, syncSkip_eq p u { env with http := h' } r h1 h2]
  · intro g
    rw [hmain, syncSkip_eq p u { env with gpt := g } r h1 h2]

/-- C3 witness: short-circuit at a concrete SUCCESS record, category
unchanged case included via the refreshed-in-place equation. -/
theorem c3_success_short_circuit_witness :
    (syncProcessTarget post0 "u" envC3).1 =
      { rePortal := "P1", reCategory := "CatB",
        reSuccess := true, reResponse := "Already published." } ∧
    (syncProcessTarget post0 "u" envC3).2 =
      { recSuccess1 with portal_category_id := 2 } := by
  have h := c3_success_short_circuit post0 "u" envC3 recSuccess1 rfl rfl
  exact ⟨h.1, h.2.1⟩

/-- C3 counterexample: the claim says no field of the record is mutated,
but the SUCCESS short-circuit still rewrites `portal_category` in place
when the resolved category (2) differs from the stored one (1). -/
theorem c3_counterexample :
    envC3.existing = some recSuccess1 ∧ recSuccess1.dstatus = .success ∧
    (syncProcessTarget post0 "u" envC3).1.reResponse = "Already published." ∧
    (syncProcessTarget post0 "u" envC3).2.portal_category_id = 2 ∧
    recSuccess1.portal_category_id = 1 ∧
    (syncProcessTarget post0 "u" envC3).2 ≠ recSuccess1 := by
  refine ⟨rfl, rfl, rfl, rfl, rfl, ?_⟩
  intro hEq
  exact absurd (congrArg DistRecord.portal_category_id hEq) (by decide)

/-- No branch of a worker attempt ever changes the retry counter of the
record it acquired. -/
theorem asyncAfterLookup_retry (p : Post) (env : AsyncTargetEnv)
    (pn cn : String) (ce : Nat) (r0 : DistRecord) :
    ∀ x, asyncAfterLookup p env pn cn ce r0 = .ok x → ∀ r', x.2 = some r' →
      r'.retry_count = r0.retry_count := by
  intro x hok r' hr'
  unfold asyncAfterLookup at hok
  repeat' split at hok
  all_goals
    first
    | exact Except.noConfusion hok
    | (injection hok with h; subst h;
        first
        | exact Option.noConfusion hr'
        | (injection hr' with h2; subst h2; rfl))

/-- No branch of a worker iteration ever changes the retry counter of the
record it acquired. -/
theorem asyncProcessTarget_retry (p : Post) (env : AsyncTargetEnv) :
    ∀ x, asyncProcessTarget p env = .ok x → ∀ r', x.2 = some r' →
      r'.retry_count = (asyncAcquireRecord env).retry_count := by
  intro x hok r' hr'
  unfold asyncProcessTarget at hok
  split at hok
  · injection hok with h
    subst h
    exact Option.noConfusion hr'
  · exact asyncAfterLookup_retry p env _ _ _ _ x hok r' hr'

/-- C4 (amended): on the synchronous path a FAILED record is re-armed —
`retry_count` goes up by exactly 1 and the status passes through PENDING —
and no other status path changes `retry_count`; the celery worker, by
contrast, proceeds on a FAILED record without incrementing `retry_count`
and without resetting it to PENDING. -/
theorem c4_retry_bookkeeping :
    (∀ r, r.dstatus = .failed →
        rearm r = { r with retry_count := r.retry_count + 1, dstatus := .pending }) ∧
    (∀ r, r.dstatus ≠ .failed → rearm r = r) ∧
    (∀ p u env r, env.existing = some r → r.dstatus = .failed →
        (syncProcessTarget p u env).2.retry_count = r.retry_count + 1) ∧
    (∀ p u env r, env.existing = some r → r.dstatus ≠ .failed →
        (syncProcessTarget p u env).2.retry_count = r.retry_count) ∧
    (∀ p env r x, env.existing = some r → asyncProcessTarget p env = .ok x →
        ∀ r', x.2 = some r' → r'.retry_count = r.retry_count) := by
  refine ⟨?_, ?_, ?_, ?_, ?_⟩
  · intro r h; simp [rearm, h]
  · intro r h; simp [rearm, h]
  · intro p u env r h1 h2
    have hacq : acquireRecord env = (r, false) := by simp [acquireRecord, h1]
    have hst : (refreshCategory r false env.catId).dstatus = DistStatus.failed := by
      rw [refreshCategory_dstatus]; exact h2
    have hns : ¬ ((refreshCategory r false env.catId).dstatus = DistStatus.success) := by
      rw [hst]; intro hcon; exact DistStatus.noConfusion hcon
    simp [syncProcessTarget, hacq, hns, syncFinalize_retry, rearm, hst,
      refreshCategory_retry]
  · intro p u env r h1 h2
    have hacq : acquireRecord env = (r, false) := by simp [acquireRecord, h1]
    rcases hcase : r.dstatus with _ | _ | _
    · have hns : ¬ ((refreshCategory r false env.catId).dstatus = DistStatus.success) := by
        rw [refreshCategory_dstatus, hcase]; intro hcon; exact DistStatus.noConfusion hcon
      have hnf : ¬ ((refreshCategory r false env.catId).dstatus = DistStatus.failed) := by
        rw [refreshCategory_dstatus, hcase]; intro hcon; exact DistStatus.noConfusion hcon
      simp [syncProcessTarget, hacq, hns, syncFinalize_retry, rearm, hnf,
        refreshCategory_retry]
    · rw [syncSkip_eq p u env r h1 hcase]
    · exact absurd hcase h2
  · intro p env r x h1 hok r' hr'
    have hr0 : asyncAcquireRecord env = r := by simp [asyncAcquireRecord, h1]
    have := asyncProcessTarget_retry p env x hok r' hr'
    rw [hr0] at this
    exact this

/-- C4 witness: re-publishing a FAILED record synchronously increments
`retry_count` from 0 to 1 and re-arms it through PENDING. -/
theorem c4_retry_bookkeeping_witness :
    (syncProcessTarget post0 "u"
        { syncEnv0 with existing := some recFailed0 }).2.retry_count = 1 ∧
    rearm recFailed0 =
      { recFailed0 with retry_count := 1, dstatus := .pending } := by
  refine ⟨c4_retry_bookkeeping.2.2.1 post0 "u"
    { syncEnv0 with existing := some recFailed0 } recFailed0 rfl rfl,
    c4_retry_bookkeeping.1 recFailed0 rfl⟩

/-- C4 counterexample: the claim covers every publish invocation, but the
celery worker proceeds on a FAILED record leaving `retry_count` at 0 and
never passing through PENDING. -/
theorem c4_counterexample :
    envC4.existing = some recFailed0 ∧ recFailed0.dstatus = .failed ∧
    recFailed0.retry_count = 0 ∧
    (match asyncProcessTarget post0 envC4 with
     | .ok (_, some r) => some (r.retry_count, r.dstatus)
     | _ => none) = some (0, .failed) := ⟨rfl, rfl, rfl, rfl⟩

/-- A worker attempt whose file preparation does not raise returns
normally. -/
theorem asyncAfterLookup_ok (p : Post) (env : AsyncTargetEnv)
    (pn cn : String) (ce : Nat) (r0 : DistRecord)
    (himg : ∀ e, asyncFiles p env ≠ .error e) :
    ∃ x, asyncAfterLookup p env pn cn ce r0 = .ok x := by
  unfold asyncAfterLookup
  repeat' split
  all_goals
    first
    | exact ⟨_, rfl⟩
    | (exfalso; exact himg _ (by assumption))

/-- A worker iteration whose file preparation does not raise returns
normally. -/
theorem asyncProcessTarget_ok (p : Post) (env : AsyncTargetEnv)
    (himg : ∀ e, asyncFiles p env ≠ .error e) :
    ∃ x, asyncProcessTarget p env = .ok x := by
  unfold asyncProcessTarget
  split
  · exact ⟨_, rfl⟩
  · exact asyncAfterLookup_ok p env _ _ _ _ himg

/-- The worker loop completes when no iteration's file preparation
raises. -/
theorem asyncLoop_ok (p : Post) (envs : List AsyncTargetEnv)
    (himg : ∀ env ∈ envs, ∀ e, asyncFiles p env ≠ .error e) :
    ∃ rs, asyncLoop p envs = .ok rs := by
  induction envs with
  | nil => exact ⟨[], rfl⟩
  | cons a t ih =>
    obtain ⟨x, hx⟩ := asyncProcessTarget_ok p a (himg a (List.mem_cons_self a t))
    obtain ⟨rs, hrs⟩ := ih (fun env henv => himg env (List.mem_cons_of_mem a henv))
    exact ⟨x :: rs, by simp [asyncLoop, hx, hrs]⟩

/-- C8 (amended): the job record is created PENDING at enqueue time and
moved to STARTED on pickup; a failure to load the content item or user — and
only that — marks the job FAILURE; when no target's image `open` raises, the
loop completes and the job is marked SUCCESS regardless of per-target
outcomes with no escaping exception; but an image-open failure propagates
past the loop and leaves the job in STARTED. -/
theorem c8_job_state_machine :
    (∀ e envs, runPublishTask (.error e) envs =
        { jobStatus := .failure, raised := none, returned := some (false, []) }) ∧
    (∀ p envs, (∀ env ∈ envs, ∀ e, asyncFiles p env ≠ .error e) →
        ∃ rs, asyncLoop p envs = .ok rs ∧
          runPublishTask (.ok p) envs =
            { jobStatus := .success, raised := none,
              returned := some (true, rs.map (·.1)) }) ∧
    (∀ p envs, (runPublishTask (.ok p) envs).jobStatus ≠ .failure) ∧
    (∀ db a mc man excl ms st,
        backgroundPublish db a mc man excl = .bgEnqueued ms st → st = .pending) := by
  refine ⟨fun e envs => rfl, ?_, ?_, ?_⟩
  · intro p envs himg
    obtain ⟨rs, hrs⟩ := asyncLoop_ok p envs himg
    exact ⟨rs, hrs, by simp [runPublishTask, hrs]⟩
  · intro p envs
    rcases h : asyncLoop p envs with e | rs <;> simp [runPublishTask, h]
  · intro db a mc man excl ms st h
    unfold backgroundPublish at h
    rcases hf : backgroundFlow db a mc man with e | maps <;> rw [hf] at h
    · exact BgResponse.noConfusion h
    · injection h with h1 h2
      exact h2.symm

/-- C8 witness: a load failure yields FAILURE; a batch whose image opens
succeed yields SUCCESS with no escaping exception. -/
theorem c8_job_state_machine_witness :
    runPublishTask (.error "MasterNewsPost matching query does not exist.") [] =
      { jobStatus := .failure, raised := none, returned := some (false, []) } ∧
    (∃ rs, asyncLoop post0 [asyncEnv0] = .ok rs ∧
      runPublishTask (.ok post0) [asyncEnv0] =
        { jobStatus := .success, raised := none,
          returned := some (true, rs.map (·.1)) }) := by
  refine ⟨c8_job_state_machine.1 _ [], c8_job_state_machine.2.1 post0 [asyncEnv0] ?_⟩
  intro env henv e
  rw [List.mem_singleton.mp henv]
  exact fun hcon => Except.noConfusion hcon

/-- C8 counterexample: the claim says no exception propagates past the
worker boundary, but a failing image `open` on `tasks.py` line 195 escapes
the task and leaves the job record in STARTED. -/
theorem c8_counterexample :
    runPublishTask (.ok post0) [envC8] =
      { jobStatus := .started, raised := some "No such file or directory",
        returned := none } ∧
    post0.post_image = some "master.jpg" ∧
    envC8.imageOpen = .error "No such file or directory" := ⟨rfl, rfl, rfl⟩

/-- C5 (amended): the synchronous publish aborts with the user-facing
no-targets error, before any per-target work, when the resolved target list
is empty after exclusions; the asynchronous trigger only rejects an empty or
invalid manual selection *before* exclusions are applied — otherwise it
always enqueues the job and creates a PENDING job record, even when the
mapping list left after exclusions is empty. -/
theorem c5_no_targets :
    (∀ db mc trig man excl p u envOf,
        resolveTargets db mc trig man excl = [] →
        masterNewsPublish db mc trig man excl p u envOf =
          .errorResp "No valid portal categories found to publish to.") ∧
    (∀ db a man excl, man ≠ [] →
        (db.portalCategories.filter (fun c => man.contains c.pcId)) ≠ [] →
        ∃ ms, backgroundPublish db a none man excl = .bgEnqueued ms .pending) := by
  constructor
  · intro db mc trig man excl p u envOf h
    simp [masterNewsPublish, h]
  · intro db a man excl hman hdir
    have h1 : man.isEmpty = false := by
      cases man with
      | nil => exact absurd rfl hman
      | cons x t => rfl
    have h2 : (db.portalCategories.filter (fun c => man.contains c.pcId)).isEmpty = false := by
      rcases hd : db.portalCategories.filter (fun c => man.contains c.pcId) with _ | ⟨x, t⟩
      · exact absurd hd hdir
      · rw [hd]; rfl
    have hok : backgroundFlow db a none man = .ok (bgFlowB db man) := by
      unfold backgroundFlow
      rw [if_neg (by decide),
        if_neg (fun hcon => by rw [h1] at hcon; exact Bool.noConfusion hcon),
        if_neg (fun hcon => by rw [h2] at hcon; exact Bool.noConfusion hcon)]
    exact ⟨_, by unfold backgroundPublish; rw [hok]⟩

/-- C5 witness: at the same store and override set, the synchronous path
errors while the asynchronous path enqueues. -/
theorem c5_no_targets_witness :
    masterNewsPublish dbOneCat none none [1] [1] post0 "u" (fun _ => syncEnv0) =
      .errorResp "No valid portal categories found to publish to." ∧
    (∃ ms, backgroundPublish dbOneCat false none [1] [] = .bgEnqueued ms .pending) := by
  exact ⟨c5_no_targets.1 dbOneCat none none [1] [1] post0 "u" (fun _ => syncEnv0) rfl,
    c5_no_targets.2 dbOneCat false [1] [] (by simp) (by simp [dbOneCat])⟩

/-- C5 counterexample: with one portal category manually selected and also
excluded, the resolved set is empty after exclusions, yet the asynchronous
trigger still enqueues a job (with an empty mapping list) and creates a
PENDING job record — the claim demands a no-targets failure and no job. -/
theorem c5_counterexample :
    backgroundPublish dbOneCat false none [1] [1] = .bgEnqueued [] .pending := by
  rfl

/-- C9 (amended): for the same content, user and resolved target the celery
worker builds the same outbound payload as the synchronous orchestrator on
every field *except* `is_active` and `Event`, which it sources from the
content item's `is_active`/`Event` columns instead of
`latest_news`/`upcoming_event` (the payloads coincide exactly when those
column pairs agree); it attaches the master image unconditionally, agreeing
with the synchronous image choice only when no per-portal custom image
exists; and on a failed attempt the synchronous path leaves `ai_title`,
`ai_slug` and the remote id untouched while the worker's final update
always writes the five `ai_*` fields and the raw remote id. -/
theorem c9_sync_async_divergence :
    (∀ p c a rw t n, buildAsyncPayload p c a rw t n =
        { buildSyncPayload p c a rw t n with
          is_active := b2i p.is_active, Event := b2i p.Event }) ∧
    (∀ p c a rw t n, p.latest_news = p.is_active → p.upcoming_event = p.Event →
        buildSyncPayload p c a rw t n = buildAsyncPayload p c a rw t n) ∧
    (∀ env p, env.customImagePath = none → syncImagePath env p = asyncImagePath p) ∧
    (∀ p, asyncImagePath p = p.post_image) ∧
    (∀ r env e, (syncFinalize r env (.error e)).1.ai_title = r.ai_title ∧
                (syncFinalize r env (.error e)).1.ai_slug = r.ai_slug ∧
                (syncFinalize r env (.error e)).1.portal_news_id = r.portal_news_id) ∧
    (∀ r0 env rw gw, (asyncFinalize r0 env rw gw).ai_title = some rw.title ∧
                     (asyncFinalize r0 env rw gw).ai_slug = some rw.slug ∧
                     (asyncFinalize r0 env rw gw).portal_news_id = gw.gwNewsId) := by
  refine ⟨fun p c a rw t n => rfl, ?_, ?_, fun p => rfl,
    fun r env e => ⟨rfl, rfl, rfl⟩, fun r0 env rw gw => ⟨rfl, rfl, rfl⟩⟩
  · intro p c a rw t n h1 h2
    simp [buildSyncPayload, buildAsyncPayload, h1, h2]
  · intro env p h
    simp [syncImagePath, asyncImagePath, h]

/-- C9 witness: with the flag columns aligned and no custom image, payload
and image choice coincide. -/
theorem c9_sync_async_divergence_witness :
    buildSyncPayload postAligned 9 4 (defaultContent postAligned) "d" "n" =
      buildAsyncPayload postAligned 9 4 (defaultContent postAligned) "d" "n" ∧
    syncImagePath syncEnv0 post0 = asyncImagePath post0 := by
  exact ⟨c9_sync_async_divergence.2.1 postAligned 9 4 (defaultContent postAligned)
    "d" "n" rfl rfl, c9_sync_async_divergence.2.2.1 syncEnv0 post0 rfl⟩

/-- C9 counterexample: at one concrete content item and target the worker's
payload differs from the synchronous one on `is_active` and `Event`, its
image choice ignores the per-portal custom image, and on the same failed
gateway call the worker writes `ai_title` while the synchronous path leaves
it untouched — refuting "same payload field-for-field, same image, same
delivery-record updates". -/
theorem c9_counterexample :
    buildSyncPayload post0 9 4 (defaultContent post0) "d" "n" ≠
      buildAsyncPayload post0 9 4 (defaultContent post0) "d" "n" ∧
    (buildSyncPayload post0 9 4 (defaultContent post0) "d" "n").is_active = 0 ∧
    (buildAsyncPayload post0 9 4 (defaultContent post0) "d" "n").is_active = 1 ∧
    (buildSyncPayload post0 9 4 (defaultContent post0) "d" "n").Event = 0 ∧
    (buildAsyncPayload post0 9 4 (defaultContent post0) "d" "n").Event = 1 ∧
    syncImagePath envC9s post0 = some "custom.jpg" ∧
    asyncImagePath post0 = some "master.jpg" ∧
    (syncProcessTarget post0 "u" envC9s).1.reSuccess = false ∧
    (syncProcessTarget post0 "u" envC9s).2.ai_title = none ∧
    (match asyncProcessTarget post0 asyncEnv0 with
     | .ok (_, some r) => r.ai_title
     | _ => none) = some (.str "T") := by
  refine ⟨?_, rfl, rfl, rfl, rfl, rfl, rfl, rfl, rfl, rfl⟩
  intro hEq
  exact absurd (congrArg Payload.is_active hEq) (by decide)

/-- Lookup in a cons whose head key does not match. -/
theorem tmLookup_cons_ne (a : Nat × Bool) (t : TargetMap) (j : Nat)
    (h : (a.1 == j) = false) : tmLookup (a :: t) j = tmLookup t j := by
  simp [tmLookup, List.find?_cons, h]

/-- Lookup in a cons whose head key matches. -/
theorem tmLookup_cons_eq (a : Nat × Bool) (t : TargetMap) (j : Nat)
    (h : (a.1 == j) = true) : tmLookup (a :: t) j = some a.2 := by
  simp [tmLookup, List.find?_cons, h]

/-- Presence in the target dict coincides with a successful lookup. -/
theorem tmAny_eq (m : TargetMap) (k : Nat) :
    m.any (fun p => p.1 == k) = (tmLookup m k).isSome := by
  induction m with
  | nil => rfl
  | cons a t ih =>
    cases h : (a.1 == k)
    · rw [List.any_cons, h, Bool.false_or, tmLookup_cons_ne _ _ _ h, ih]
    · rw [List.any_cons, h, Bool.true_or, tmLookup_cons_eq _ _ _ h]
      rfl

/-- Lookup distributes over append as a left-biased choice. -/
theorem tmLookup_append (m1 m2 : TargetMap) (j : Nat) :
    tmLookup (m1 ++ m2) j = (tmLookup m1 j).or (tmLookup m2 j) := by
  unfold tmLookup
  rw [List.find?_append]
  rcases h1 : m1.find? (fun p => p.1 == j) with _ | x <;> simp [h1]

/-- Lookup in a one-entry dict. -/
theorem tmLookup_single (k : Nat) (v : Bool) (j : Nat) :
    tmLookup [(k, v)] j = if j = k then some v else none := by
  by_cases h : j = k
  · subst h; simp [tmLookup, List.find?_cons]
  · have hb : ((k, v).1 == j) = false := beq_eq_false_iff_ne.2 (fun hcon => h hcon.symm)
    rw [tmLookup_cons_ne _ _ _ hb, if_neg h]
    rfl

/-- Lookup after an insert-if-absent. -/
theorem tmLookup_dictSetIfAbsent (m : TargetMap) (k : Nat) (v : Bool) (j : Nat) :
    tmLookup (dictSetIfAbsent m k v) j =
      if j = k then (tmLookup m k).or (some v) else tmLookup m j := by
  unfold dictSetIfAbsent
  by_cases hp : m.any (fun p => p.1 == k) = true
  · rw [if_pos hp]
    by_cases hj : j = k
    · subst hj
      have hs : (tmLookup m j).isSome = true := by rw [← tmAny_eq]; exact hp
      rw [if_pos rfl]
      rcases ho : tmLookup m j with _ | w
      · rw [ho] at hs; exact Bool.noConfusion hs
      · rfl
    · rw [if_neg hj]
  · rw [if_neg hp, tmLookup_append, tmLookup_single]
    by_cases hj : j = k
    · subst hj
      rw [if_pos rfl, if_pos rfl]
    · rw [if_neg hj, if_neg hj, Option.or_none]

/-- Lookup after inserting a list of ids if absent, with flag `false`. -/
theorem tmLookup_insertAbsentAll (ids : List Nat) (m : TargetMap) (j : Nat) :
    tmLookup (insertAbsentAll m ids) j =
      (tmLookup m j).or (if j ∈ ids then some false else none) := by
  induction ids generalizing m with
  | nil => simp [insertAbsentAll]
  | cons k t ih =>
    rw [show insertAbsentAll m (k :: t) =
          insertAbsentAll (dictSetIfAbsent m k false) t from rfl,
        ih, tmLookup_dictSetIfAbsent]
    by_cases hj : j = k
    · subst hj
      rw [if_pos rfl]
      rcases ho : tmLookup m j with _ | w <;> simp [List.mem_cons]
    · rw [if_neg hj]
      have hmm : (j ∈ k :: t) ↔ (j ∈ t) := by simp [List.mem_cons, hj]
      rw [if_congr hmm rfl rfl]

/-- Lookup after the exclusion filter. -/
theorem tmLookup_filter_excl (m : TargetMap) (excl : List Nat) (j : Nat) :
    tmLookup (m.filter (fun p => !excl.contains p.1)) j =
      if j ∈ excl then none else tmLookup m j := by
  induction m with
  | nil => by_cases hj : j ∈ excl <;> simp [tmLookup, hj]
  | cons a t ih =>
    rw [List.filter_cons]
    cases hc : excl.contains a.1 <;> cases hj : (a.1 == j)
    · -- kept, key differs: recurse
      rw [if_pos (by decide), tmLookup_cons_ne _ _ _ hj, ih,
        tmLookup_cons_ne _ _ _ hj]
    · -- kept, key matches: j is not excluded, heads agree
      have haj : a.1 = j := by simpa using hj
      have hjx : ¬ (j ∈ excl) := by
        intro hx
        have hcx : excl.contains a.1 = true := by rw [haj]; exact List.elem_iff.2 hx
        rw [hc] at hcx
        exact Bool.noConfusion hcx
      rw [if_pos (by decide), tmLookup_cons_eq _ _ _ hj, if_neg hjx,
        tmLookup_cons_eq _ _ _ hj]
    · -- dropped, key differs: recurse
      rw [if_neg (by decide), ih, tmLookup_cons_ne _ _ _ hj]
    · -- dropped, key matches: j is excluded, both sides none
      have haj : a.1 = j := by simpa using hj
      have hjx : j ∈ excl := by rw [← haj]; exact List.elem_iff.1 hc
      rw [if_neg (by decide), ih, if_pos hjx, if_pos hjx]

/-- The cross-portal stage on a truthy trigger that exists in the store. -/
theorem addCross_some (db : Db) (s : TargetMap) (t : Nat) (ht0 : t ≠ 0)
    (htc : db.portalCategories.any (fun c => c.pcId == t) = true) :
    addCross db s (some t) =
      insertAbsentAll (dictSet s t true)
        ((db.crossMappings.filter (fun r => r.xSourceId == t)).map (·.xTargetId)) := by
  rw [show addCross db s (some t) =
      (if t = 0 then s
       else if (db.portalCategories.any fun c => c.pcId == t) = true then
         insertAbsentAll (dictSet s t true)
           ((db.crossMappings.filter (fun r => r.xSourceId == t)).map (·.xTargetId))
       else s) from rfl]
  rw [if_neg ht0, if_pos htc]

/-- C2: the resolver is the ordered three-source merge of the claim.  The
hypotheses are the claim's implicit well-formedness side conditions (the
spec has them as "silently skipped" edge cases): the trigger id, when
given, is truthy and refers to an existing portal category, and every
manual id refers to an existing portal category.  Every category id then
resolves identically under the code's merge and the claim's merge. -/
theorem c2_target_resolution (db : Db) (mc trig : Option Nat)
    (manual excl : List Nat)
    (htrig : ∀ t, trig = some t →
      t ≠ 0 ∧ db.portalCategories.any (fun c => c.pcId == t) = true)
    (hman : ∀ c ∈ manual, db.portalCategories.any (fun x => x.pcId == c) = true) :
    ∀ k, tmLookup (resolveTargets db mc trig manual excl) k =
         tmLookup (claimResolve db mc trig manual excl) k := by
  intro k
  have hmem : ∀ j, (j ∈ (db.portalCategories.filter
      (fun c => manual.contains c.pcId)).map (·.pcId)) ↔ j ∈ manual := by
    intro j
    constructor
    · intro hj
      rcases List.mem_map.1 hj with ⟨c, hc, rfl⟩
      rcases List.mem_filter.1 hc with ⟨_, hcont⟩
      exact List.elem_iff.1 hcont
    · intro hj
      rcases List.any_eq_true.1 (hman j hj) with ⟨c, hc, hck⟩
      have hck' : c.pcId = j := by simpa using hck
      refine List.mem_map.2 ⟨c, List.mem_filter.2 ⟨hc, ?_⟩, hck'⟩
      rw [hck']
      exact List.elem_iff.2 hj
  have hman2 : ∀ (S : TargetMap),
      tmLookup (insertAbsentAll S ((db.portalCategories.filter
        (fun c => manual.contains c.pcId)).map (·.pcId))) k =
      tmLookup (insertAbsentAll S manual) k := by
    intro S
    rw [tmLookup_insertAbsentAll, tmLookup_insertAbsentAll, if_congr (hmem k) rfl rfl]
  cases trig with
  | none =>
    simp only [resolveTargets, claimResolve, addManual, addCross]
    rw [tmLookup_filter_excl, tmLookup_filter_excl, hman2]
  | some t =>
    obtain ⟨ht0, htc⟩ := htrig t rfl
    simp only [resolveTargets, claimResolve, addManual]
    rw [addCross_some db (source1 db mc) t ht0 htc, tmLookup_filter_excl,
      tmLookup_filter_excl, hman2]

/-- C2 witness: the spec's resolution scenario — master category 5 mapped
to {1 ↦ false, 2 ↦ true}, trigger 2, manual [3], excluded [1] — resolves to
{2 ↦ true, 3 ↦ false} under both merges. -/
theorem c2_target_resolution_witness :
    tmLookup (resolveTargets dbScenario (some 5) (some 2) [3] [1]) 2 =
      tmLookup (claimResolve dbScenario (some 5) (some 2) [3] [1]) 2 ∧
    resolveTargets dbScenario (some 5) (some 2) [3] [1] = [(2, true), (3, false)] := by
  refine ⟨c2_target_resolution dbScenario (some 5) (some 2) [3] [1] ?_ ?_ 2, by decide⟩
  · intro t ht
    injection ht with h
    subst h
    exact ⟨by decide, by decide⟩
  · intro c hc
    have : c = 3 := by simpa using hc
    subst this
    decide

/-- C10: the local delivery record is deleted iff the portal-side delete
succeeds (HTTP 200 or 204) or the record has no remote `portal_news_id`;
when the portal-side delete fails or raises, the local record is kept and an
error response embedding the gateway message is returned. -/
theorem c10_delete_record_atomicity (pid : Option String) (h : HttpResult) :
    (deleteDistribution pid h).isDeleted = (pid.isNone || deleteCallOk h) ∧
    (pid.isNone = false → deleteCallOk h = false →
      deleteDistribution pid h =
        .kept ("Failed to delete from portal: " ++ (deleteGateway h).2)) := by
  cases pid with
  | none =>
    cases h <;>
      simp [deleteDistribution, DeleteOutcome.isDeleted, deleteCallOk, Option.isNone]
  | some s =>
    cases h with
    | exn e =>
      simp [deleteDistribution, deleteGateway, DeleteOutcome.isDeleted, deleteCallOk,
        Option.isNone]
    | ok c b j =>
      cases hb : (c == 200 || c == 204) <;>
        simp [deleteDistribution, deleteGateway, DeleteOutcome.isDeleted, deleteCallOk,
          Option.isNone, hb]

/-- C10 witness: a record with a remote id whose portal delete raises is
kept, with the error surfaced. -/
theorem c10_delete_record_atomicity_witness :
    deleteDistribution (some "5") (.exn "timeout") =
      .kept ("Failed to delete from portal: " ++ "timeout") ∧
    (deleteDistribution (some "5") (.exn "timeout")).isDeleted = false := by
  have h := c10_delete_record_atomicity (some "5") (.exn "timeout")
  exact ⟨h.2 rfl rfl, by rw [h.1]; rfl⟩

/-- C7 (amended): every gateway exception becomes `(success = false,
str(error))`; create/update succeed iff HTTP 200/201 and delete iff HTTP
200/204; a non-JSON body yields no remote id without being an error; the
synchronous view extracts `data.id` only when the body's `status` flag is
truthy, while the celery worker extracts `data.id` from any successful
JSON-dict response without consulting the `status` flag. -/
theorem c7_gateway_interpretation :
    (∀ e, createGatewaySync (.exn e) = ⟨false, e, none⟩ ∧
          createGatewayAsync (.exn e) = ⟨false, e, none⟩ ∧
          updateGateway (.exn e) = (false, e) ∧
          deleteGateway (.exn e) = (false, e)) ∧
    (∀ c b j, (createGatewaySync (.ok c b j)).gwSuccess = (c == 200 || c == 201) ∧
              (createGatewayAsync (.ok c b j)).gwSuccess = (c == 200 || c == 201) ∧
              (updateGateway (.ok c b j)).1 = (c == 200 || c == 201) ∧
              (deleteGateway (.ok c b j)).1 = (c == 200 || c == 204)) ∧
    (∀ c b kvs, jTruthy (fieldVal (.obj kvs) "status") = false →
        (createGatewaySync (.ok c b (some (.obj kvs)))).gwNewsId = none) ∧
    (∀ c b, (createGatewaySync (.ok c b none)).gwNewsId = none ∧
            (createGatewayAsync (.ok c b none)).gwNewsId = none ∧
            (createGatewaySync (.ok c b none)).gwSuccess = (c == 200 || c == 201)) ∧
    (∀ c b j, (createGatewayAsync (.ok c b j)).gwNewsId =
        if c == 200 || c == 201 then extractIdAsync j else none) := by
  refine ⟨fun e => ⟨rfl, rfl, rfl, rfl⟩, fun c b j => ⟨rfl, rfl, rfl, rfl⟩, ?_,
    fun c b => ⟨rfl, by simp [createGatewayAsync, extractIdAsync], rfl⟩,
    fun c b j => rfl⟩
  intro c b kvs hflag
  simp [createGatewaySync, extractIdSync, fieldVal] at hflag ⊢
  simp [hflag]

/-- C7 witness: a falsy `status` flag suppresses the id in the synchronous
view. -/
theorem c7_gateway_interpretation_witness :
    jTruthy (fieldVal flagFalseBody "status") = false ∧
    (createGatewaySync
      (.ok 200 "b" (some (.obj [("status", .jbool false),
        ("data", .obj [("id", .num 7)])])))).gwNewsId = none := by
  refine ⟨rfl, c7_gateway_interpretation.2.2.1 200 "b"
    [("status", .jbool false), ("data", .obj [("id", .num 7)])] rfl⟩

/-- C7 counterexample: the claim says the remote id is taken only when the
response's `status` flag is truthy, but the celery worker's create path
extracts `data.id` from a flag-falsy body. -/
theorem c7_counterexample :
    (createGatewayAsync (.ok 200 "b" (some flagFalseBody))).gwNewsId = some (.num 7) ∧
    (createGatewaySync (.ok 200 "b" (some flagFalseBody))).gwNewsId = none ∧
    jTruthy (fieldVal flagFalseBody "status") = false := ⟨rfl, rfl, rfl⟩

/-- C6 (amended): the transformer's parse uses the first element of an
array (an empty array fails); it unwraps one level whenever a dict's
*first* key is not one of the five expected field names (not only for
single-key wrappers); any required key missing or empty after normalization
makes the whole call fail (`None`), as does an exception from the AI
service — no partial fields are ever returned. -/
theorem c6_parse_normalization :
    (∀ x xs, parseVariation (.arr (x :: xs)) = validateExtract x) ∧
    parseVariation (.arr []) = none ∧
    (∀ k v rest, requiredKeys.contains k = false →
        parseVariation (.obj ((k, v) :: rest)) = validateExtract v) ∧
    (∀ d k, k ∈ requiredKeys → fieldOk (normalizeGpt d) k = false →
        parseVariation d = none) ∧
    (∀ e, generate_variation_with_gpt (.error e) = none) := by
  refine ⟨fun x xs => rfl, rfl, ?_, ?_, fun e => rfl⟩
  · intro k v rest h
    have h' : ¬ (k ∈ requiredKeys) := by simpa using h
    simp [parseVariation, normalizeGpt, h']
  · intro d k hk hbad
    unfold parseVariation
    rcases hn : normalizeGpt d with _ | _ | _ | _ | _ | kvs
    · rfl
    · rfl
    · rfl
    · rfl
    · rfl
    · rw [hn] at hbad
      have hall : ¬ (requiredKeys.all (fun k => fieldOk (.obj kvs) k) = true) := by
        intro hall
        have hfk := List.all_eq_true.1 hall k hk
        rw [hbad] at hfk
        exact Bool.false_ne_true hfk
      simp [validateExtract, hall]

/-- C6 witness: a single-key wrapper is unwrapped, and a dict whose `title`
is empty fails. -/
theorem c6_parse_normalization_witness :
    parseVariation (.obj [("wrap", goodFields)]) = validateExtract goodFields ∧
    parseVariation (.obj [("title", .str "")]) = none := by
  refine ⟨c6_parse_normalization.2.2.1 "wrap" goodFields [] (by decide),
    c6_parse_normalization.2.2.2.1 (.obj [("title", .str "")]) "title" (by decide) (by decide)⟩

/-- C6 counterexample: on a two-key dict whose first key is unknown, the
code unwraps and succeeds while the claim (unwrap only single-key wrappers,
then fail on missing keys) demands failure. -/
theorem c6_counterexample :
    parseVariation twoKeyWrapper =
      some (.str "t", .str "s", .str "d", .str "m", .str "sl") ∧
    claimParse twoKeyWrapper = none := ⟨rfl, rfl⟩

end Recon
